import Mathlib

/-!
Shallow embedding of the authentication/authorization core of the `hw-8-8`
e-commerce backend (src/crud.py, src/main.py, src/models.py, src/schemas.py),
together with proofs about the behaviour its specification claims.

Conventions of the embedding:
* The relational store is a `DB` value; each HTTP request is a pure function
  from the durable `DB` (the state last committed) to a response and the new
  durable `DB`.  A per-request SQLAlchemy session sees the durable state plus
  its own uncommitted mutations; `db.commit()` promotes the session state to
  durable, and closing the session at the end of the request without a commit
  discards pending mutations (transaction rollback, spec sections 5 and 6).
* `utils.py` and `dependencies.py` are part of the repository but are not in
  the source tree given; the definitions translating them are modelled from
  the spec and are marked as such in their doc comments.
* Wall-clock time (`now`), bcrypt's random salt (`salt`), database-generated
  primary keys (`nextId`) and commit success (`commitOk`) are explicit inputs.
* Times are in seconds.
-/

deriving instance DecidableEq for Except

namespace Delivery

/-- Modelled from the spec: `utils.SECRET_KEY` (utils.py is not in the given
source tree).  Section 4.2: the signing key is process-wide static
configuration. -/
def SECRET_KEY : String := "secret-key"

/-- Modelled from the spec: `utils.ALGORITHM` (utils.py is not in the given
source tree). -/
def ALGORITHM : String := "HS256"

/-- Modelled from the spec: `utils.ACCESS_TOKEN_EXPIRE_MINUTES` (utils.py is
not in the given source tree).  Section 4.2: a fixed configured duration in
minutes. -/
def ACCESS_TOKEN_EXPIRE_MINUTES : Nat := 30

/-- A signed JWT.  HS256 signing is deterministic, so two tokens with the same
payload signed with the same key are the same string; structural equality of
this record therefore coincides with string equality of the encoded token.
`sub` is `none` when the payload carries no "sub" claim. -/
structure JwtToken where
  sub : Option String
  exp : Nat
  key : String
  alg : String
deriving DecidableEq, Repr

/-- Modelled from the spec: `utils.create_access_token(data, expires_delta)`
(utils.py is not in the given source tree).  Section 4.2 `issue(subject, ttl)`:
a signed token embedding the subject and an absolute expiry `now + ttl`,
signed with the process-wide secret. -/
def create_access_token (data_sub : String) (expires_delta : Nat) (now : Nat) : JwtToken :=
  { sub := some data_sub, exp := now + expires_delta, key := SECRET_KEY, alg := ALGORITHM }

/-- Embedding of `jose.jwt.decode(token, SECRET_KEY, algorithms=[ALGORITHM])`: fails (raises
`JWTError`, here `none`) when the signature does not verify against the
process key/algorithm or the expiry has passed; otherwise returns the payload,
of which only the "sub" claim is ever read by this codebase. -/
def jwt_decode (t : JwtToken) (now : Nat) : Option (Option String) :=
  if t.key = SECRET_KEY ∧ t.alg = ALGORITHM ∧ now < t.exp then some t.sub else none

/-- A bcrypt digest.  Modelled from the spec, section 4.1: a salted one-way
digest of the plaintext; the one-way property is not needed by any claim, so
the digest is modelled as the pair of the hashed input and the salt drawn at
hashing time (the same input hashed with different salts gives different
digests, as the spec requires). -/
structure HashDigest where
  input : String
  salt : Nat
deriving DecidableEq, Repr

/-- Modelled from the spec: `utils.get_password_hash(password)` (utils.py is
not in the given source tree).  Section 4.1 `hash(plaintext)`. -/
def get_password_hash (password : String) (salt : Nat) : HashDigest :=
  { input := password, salt := salt }

/-- Modelled from the spec: `utils.verify_password(plain, hashed)` (utils.py is
not in the given source tree).  Section 4.1 `verify(plaintext, digest)`:
recomputes and compares, true exactly when the plaintext matches the digest's
original input. -/
def verify_password (plaintext : String) (digest : HashDigest) : Bool :=
  plaintext == digest.input

/-- The `models.User` (src/models.py).  `reset_token` holds at most one
outstanding reset token. -/
structure User where
  id : Nat
  username : String
  email : String
  hashed_password : HashDigest
  is_active : Bool
  is_staff : Bool
  reset_token : Option JwtToken
deriving DecidableEq, Repr

/-- The `models.Product` (src/models.py).  `price` is a SQL `Float`; no arithmetic
is ever performed on it in the verified code, so it is modelled as a rational
value. -/
structure Product where
  id : Nat
  name : String
  description : Option String
  price : ℚ
  is_active : Bool
deriving DecidableEq, Repr

/-- The `models.Order` (src/models.py). -/
structure Order where
  id : Nat
  user_id : Nat
  product_id : Nat
  quantity : Nat
  status : String
deriving DecidableEq, Repr

/-- The relational store: the three tables. -/
structure DB where
  users : List User
  products : List Product
  orders : List Order
deriving DecidableEq, Repr

/-- The error responses raised as `HTTPException` (or, for the spec-modelled
guard, returned to the framework), keyed by status code, with the `detail`
string the caller sees. -/
inductive HttpError where
  | badRequest (detail : String)
  | unauthorized (detail : String)
  | forbidden (detail : String)
  | notFound (detail : String)
  | serverError (detail : String)
deriving DecidableEq, Repr

/-- The `schemas.UserCreate` (src/schemas.py): `username` and `email` from
`UserBase` plus `password`.  No `is_staff` field is declared. -/
structure UserCreate where
  username : String
  email : String
  password : String
deriving DecidableEq, Repr

/-- The Python attribute access `user.is_staff` on a `schemas.UserCreate`
instance.  `UserCreate` declares only `username`, `email` and `password`
(src/schemas.py); a pydantic model raises `AttributeError` for an undeclared
attribute (extra keyword arguments at construction are ignored, not stored),
so the access never yields a value: modelled as `none`. -/
def UserCreate.is_staff_attr (_ : UserCreate) : Option Bool := none

/-- The `schemas.ProductCreate` (src/schemas.py): `name`, optional `description`,
`price`, `is_active` defaulting to true (the default is applied at request
validation, so the field always has a value here). -/
structure ProductCreate where
  name : String
  description : Option String
  price : ℚ
  is_active : Bool
deriving DecidableEq, Repr

/-- The `schemas.OrderCreate` (src/schemas.py): `status` defaults to "pending" at
validation. -/
structure OrderCreate where
  user_id : Nat
  product_id : Nat
  quantity : Nat
  status : String
deriving DecidableEq, Repr

/-- The `schemas.Token` (src/schemas.py), the login response body. -/
structure Token where
  access_token : JwtToken
  token_type : String
deriving DecidableEq, Repr

/-- Embedding of `crud.get_user_by_username` (src/crud.py): first row with this username. -/
def get_user_by_username (db : DB) (username : String) : Option User :=
  db.users.find? (fun u => u.username == username)

/-- Embedding of `crud.get_user_by_email` (src/crud.py): first row with this email. -/
def get_user_by_email (db : DB) (email : String) : Option User :=
  db.users.find? (fun u => u.email == email)

/-- Update the row of the user with the given id (a field update through the
session's identity map, later made durable by `db.commit()`). -/
def DB.updateUser (db : DB) (uid : Nat) (f : User → User) : DB :=
  { db with users := db.users.map (fun u => if u.id == uid then f u else u) }

/-- Embedding of `crud.create_user` (src/crud.py).  The hash and the `models.User(...)`
construction happen before the `try:` block; the keyword argument
`is_staff=user.is_staff` reads an attribute `UserCreate` does not declare, so
it raises `AttributeError`, which propagates to the caller (`Except.error`).
Inside the `try:`, a failing `db.add`/`db.commit` is caught, rolled back and
reported as `none`; on success the committed user is returned. -/
def create_user (db : DB) (user : UserCreate) (salt nextId : Nat) (commitOk : Bool) :
    Except Unit (Option User × DB) :=
  let hashed_password := get_password_hash user.password salt
  match user.is_staff_attr with
  | none => .error ()
  | some st =>
    let db_user : User :=
      { id := nextId, username := user.username, email := user.email,
        hashed_password := hashed_password, is_active := true,
        is_staff := st, reset_token := none }
    if commitOk then .ok (some db_user, { db with users := db.users ++ [db_user] })
    else .ok (none, db)

/-- Embedding of `crud.authenticate_user` (src/crud.py): `False` (here `none`) when the
username is unknown or the password does not verify, both through the same
code path to the caller. -/
def authenticate_user (db : DB) (username password : String) : Option User :=
  match get_user_by_username db username with
  | none => none
  | some user =>
    if verify_password password user.hashed_password then some user else none

/-- Embedding of `crud.create_reset_token` (src/crud.py): issues a token with
`data={"sub": user.email}` and a one hour expiry, assigns it to
`user.reset_token` on the session's copy of the row, and returns the raw
token.  It does not commit; the second component is the mutated session
state. -/
def create_reset_token (current : DB) (user : User) (now : Nat) : JwtToken × DB :=
  let token_expires : Nat := 3600
  let reset_token := create_access_token user.email token_expires now
  (reset_token, current.updateUser user.id (fun u => { u with reset_token := some reset_token }))

/-- Embedding of `crud.reset_password` (src/crud.py).  Decode failure (bad signature or
expired), a payload without "sub", an unknown email, or a mismatch with the
stored `reset_token` each return `False` before any mutation.  Otherwise both
field updates (`hashed_password` rehashed, `reset_token` cleared) are applied
to the session state and made durable by the single `db.commit()`; a failing
commit aborts the transaction, leaving the durable state unchanged, and the
exception is caught and reported as `False`. -/
def reset_password (durable : DB) (token : JwtToken) (new_password : String)
    (now salt : Nat) (commitOk : Bool) : Bool × DB :=
  match jwt_decode token now with
  | none => (false, durable)
  | some payload_sub =>
    match payload_sub with
    | none => (false, durable)
    | some email =>
      match get_user_by_email durable email with
      | none => (false, durable)
      | some user =>
        if user.reset_token != some token then (false, durable)
        else
          let current := durable.updateUser user.id (fun u =>
            { u with hashed_password := get_password_hash new_password salt,
                     reset_token := none })
          if commitOk then (true, current) else (false, durable)

/-- Embedding of `crud.get_product` (src/crud.py). -/
def get_product (db : DB) (product_id : Nat) : Option Product :=
  db.products.find? (fun p => p.id == product_id)

/-- Embedding of `crud.get_products` (src/crud.py): offset/limit listing. -/
def get_products (db : DB) (skip limit : Nat) : List Product :=
  (db.products.drop skip).take limit

/-- Embedding of `crud.get_order` (src/crud.py). -/
def get_order (db : DB) (order_id : Nat) : Option Order :=
  db.orders.find? (fun o => o.id == order_id)

/-- Embedding of `crud.get_orders` (src/crud.py): offset/limit listing. -/
def get_orders (db : DB) (skip limit : Nat) : List Order :=
  (db.orders.drop skip).take limit

/-- Modelled from the spec: the revocation list of `dependencies.py`
(`dependencies.py` is not in the given source tree).  Section 4.3: a
process-wide set of revoked token strings, starting empty. -/
def add_token_to_blacklist (blacklist : List JwtToken) (token : JwtToken) : List JwtToken :=
  if token ∈ blacklist then blacklist else token :: blacklist

/-- Modelled from the spec, section 4.3: `is_revoked(token)` is a membership
test on the revocation list. -/
def is_revoked (blacklist : List JwtToken) (token : JwtToken) : Bool :=
  decide (token ∈ blacklist)

/-- Modelled from the spec: `dependencies.get_current_user`, the access
control guard behind `Depends(get_current_user)` (`dependencies.py` is not in
the given source tree).  Section 4.4 `authenticate(token)`: (a) validate
signature/expiry, (b) consult the revocation list, (c) resolve the subject
username against the credential store; any step failing yields
Unauthenticated (`none`). -/
def authenticate_request (db : DB) (blacklist : List JwtToken) (token : JwtToken)
    (now : Nat) : Option User :=
  match jwt_decode token now with
  | none => none
  | some payload_sub =>
    match payload_sub with
    | none => none
    | some username =>
      if is_revoked blacklist token then none
      else get_user_by_username db username

/-- Embedding of `main.signup` (src/main.py).  Everything runs inside a `try:` whose
`except Exception` clause rolls back and raises 400 "Username or Email already
exists"; since `HTTPException` is an `Exception`, the more specific 400s
raised inside the block ("Username already registered", "Email already
registered", "Failed to create user") are themselves caught and re-raised
with that one detail, as is the `AttributeError` escaping
`crud.create_user`. -/
def signup (db : DB) (user : UserCreate) (salt nextId : Nat) (commitOk : Bool) :
    Except HttpError User × DB :=
  match get_user_by_username db user.username with
  | some _ => (.error (.badRequest "Username or Email already exists"), db)
  | none =>
    match get_user_by_email db user.email with
    | some _ => (.error (.badRequest "Username or Email already exists"), db)
    | none =>
      match create_user db user salt nextId commitOk with
      | .error _ => (.error (.badRequest "Username or Email already exists"), db)
      | .ok (none, db') => (.error (.badRequest "Username or Email already exists"), db')
      | .ok (some created_user, db') => (.ok created_user, db')

/-- Embedding of `main.login_for_access_token` (src/main.py): one 401 for every
authentication failure; on success an access token for the username with the
configured TTL (minutes, here converted to seconds). -/
def login_for_access_token (db : DB) (username password : String) (now : Nat) :
    Except HttpError Token :=
  match authenticate_user db username password with
  | none => .error (.unauthorized "Incorrect username or password")
  | some user =>
    let access_token :=
      create_access_token user.username (ACCESS_TOKEN_EXPIRE_MINUTES * 60) now
    .ok { access_token := access_token, token_type := "bearer" }

/-- Embedding of `main.password_reset_request` (src/main.py).  The handler runs in a
per-request session (`Depends(get_db)`); `crud.create_reset_token` mutates
the loaded user's `reset_token` but neither it nor the handler ever calls
`db.commit()`, so when the request ends the session is closed and the pending
mutation is rolled back (get_db modelled from the spec: `dependencies.get_db`
is not in the given source tree; per sections 5 and 6 the store is
transactional and a mutation becomes durable only by an explicit commit,
matching every other write path of src/, which commits explicitly).  The
token is still returned to the caller. -/
def password_reset_request (durable : DB) (email : String) (now : Nat) :
    Except HttpError JwtToken × DB :=
  match get_user_by_email durable email with
  | none => (.error (.badRequest "Email not registered"), durable)
  | some user =>
    let issued := create_reset_token durable user now
    let reset_token := issued.1
    let _uncommitted_session_state := issued.2
    (.ok reset_token, durable)

/-- Embedding of `main.password_reset_confirm` (src/main.py): a falsy result from
`crud.reset_password` becomes 400 "Invalid token or token expired". -/
def password_reset_confirm (durable : DB) (reset_token : JwtToken)
    (new_password : String) (now salt : Nat) (commitOk : Bool) :
    Except HttpError String × DB :=
  let r := reset_password durable reset_token new_password now salt commitOk
  if r.1 then (.ok "Password reset successful", r.2)
  else (.error (.badRequest "Invalid token or token expired"), r.2)

/-- Embedding of `main.logout` (src/main.py): the route depends on `get_current_user`, so
an unauthenticated token is rejected with 401 before anything runs; otherwise
the presented bearer token is added to the revocation list. -/
def logout (db : DB) (blacklist : List JwtToken) (token : JwtToken) (now : Nat) :
    Except HttpError Unit × List JwtToken :=
  match authenticate_request db blacklist token now with
  | none => (.error (.unauthorized "Not authenticated"), blacklist)
  | some _ => (.ok (), add_token_to_blacklist blacklist token)

/-- Embedding of `crud.create_product` (src/crud.py): inserts and commits the row (the
insert of a fresh row into this schema violates no constraint, so the
`except`/rollback branch is unreachable and not modelled). -/
def crud_create_product (db : DB) (product : ProductCreate) (nextId : Nat) :
    Product × DB :=
  let db_product : Product :=
    { id := nextId, name := product.name, description := product.description,
      price := product.price, is_active := product.is_active }
  (db_product, { db with products := db.products ++ [db_product] })

/-- Embedding of `main.create_product` (src/main.py): 403 for a non-staff caller before any
store access; otherwise delegate to `crud.create_product` and commit. -/
def create_product (db : DB) (current_user : User) (product : ProductCreate)
    (nextId : Nat) : Except HttpError Product × DB :=
  if !current_user.is_staff then
    (.error (.forbidden "Not authorized to create products"), db)
  else
    let r := crud_create_product db product nextId
    (.ok r.1, r.2)

/-- Embedding of `main.delete_product` (src/main.py): 403 for a non-staff caller before the
lookup; 404 when the id is unknown; otherwise delete the product's orders,
delete the product, and commit (deleting these rows violates no constraint,
so the `except IntegrityError` branch is unreachable and not modelled). -/
def delete_product (db : DB) (current_user : User) (product_id : Nat) :
    Except HttpError Product × DB :=
  if !current_user.is_staff then
    (.error (.forbidden "Not authorized to delete products"), db)
  else
    match get_product db product_id with
    | none => (.error (.notFound "Product not found"), db)
    | some product =>
      let db' : DB :=
        { db with orders := db.orders.filter (fun o => !(o.product_id == product_id)),
                  products := db.products.filter (fun p => !(p.id == product.id)) }
      (.ok product, db')

/-- Embedding of `main.read_orders` (src/main.py): a staff caller gets the unfiltered
offset/limit listing; any other caller gets the listing filtered to their own
`user_id` before offset/limit. -/
def read_orders (db : DB) (current_user : User) (skip limit : Nat) : List Order :=
  if current_user.is_staff then get_orders db skip limit
  else ((db.orders.filter (fun o => o.user_id == current_user.id)).drop skip).take limit

/-- Embedding of `main.read_order` (src/main.py): 404 for an unknown id; 403 when the
caller is neither staff nor the order's owner; otherwise the order. -/
def read_order (db : DB) (current_user : User) (order_id : Nat) :
    Except HttpError Order :=
  match get_order db order_id with
  | none => .error (.notFound "Order not found")
  | some order =>
    if !current_user.is_staff && order.user_id != current_user.id then
      .error (.forbidden "Not authorized to view this order")
    else .ok order

/-- Embedding of `main.delete_order` (src/main.py): the lookup and
owner-or-staff rule of `read_order`, then the row is deleted and committed.
The whole body runs inside a `try:` whose final `except Exception` clause
catches the handler's own 404 "Order not found" and 403 "Not authorized to
delete this order" `HTTPException`s (an `HTTPException` is an `Exception`,
and unlike `main.create_order` this handler has no `except HTTPException`
re-raise), rolls back, and re-raises 500 "Order Not Found" — so the caller
sees the 500, never the 404 or the 403.  Deleting an order violates no
constraint, so the `except IntegrityError` branch is unreachable and not
modelled. -/
def delete_order (db : DB) (current_user : User) (order_id : Nat) :
    Except HttpError Order × DB :=
  match db.orders.find? (fun o => o.id == order_id) with
  | none => (.error (.serverError "Order Not Found"), db)
  | some order =>
    if !current_user.is_staff && order.user_id != current_user.id then
      (.error (.serverError "Order Not Found"), db)
    else
      (.ok order, { db with orders := db.orders.filter (fun o => !(o.id == order.id)) })

/-! Concrete fixtures used to evaluate the endpoints on explicit inputs. -/

/-- The empty store, the state before any signup. -/
def emptyDB : DB := { users := [], products := [], orders := [] }

/-- A registered non-staff user with password "pw1" and no pending reset. -/
def alice : User :=
  { id := 1, username := "alice", email := "a@x.com",
    hashed_password := get_password_hash "pw1" 0,
    is_active := true, is_staff := false, reset_token := none }

/-- A registered staff user. -/
def root_user : User :=
  { id := 2, username := "root", email := "r@x.com",
    hashed_password := get_password_hash "pw2" 3,
    is_active := true, is_staff := true, reset_token := none }

/-- An order belonging to `alice`. -/
def order1 : Order :=
  { id := 1, user_id := 1, product_id := 1, quantity := 2, status := "pending" }

/-- An order belonging to `root_user`. -/
def order2 : Order :=
  { id := 2, user_id := 2, product_id := 1, quantity := 1, status := "pending" }

/-- A product row. -/
def prod1 : Product :=
  { id := 1, name := "tea", description := none, price := 3, is_active := true }

/-- A store with only `alice` registered. -/
def db0 : DB := { users := [alice], products := [], orders := [] }

/-- A store with both users, a product, and one order per user. -/
def db2 : DB :=
  { users := [alice, root_user], products := [prod1], orders := [order1, order2] }

/-- The reset token `password_reset_request db0 "a@x.com" 100` issues for
`alice` (subject = email, one hour expiry). -/
def aliceResetToken : JwtToken := create_access_token "a@x.com" 3600 100

/-- A bearer token for `alice` as issued by login at time 100. -/
def aliceAccessToken : JwtToken :=
  create_access_token "alice" (ACCESS_TOKEN_EXPIRE_MINUTES * 60) 100

/-! The claims. -/

/-- C1: the spec claims the reset token returned by a successful
`password_reset_request` is also stored verbatim in the user's `reset_token`
field of the credential store.  On the code this fails: the handler returns
the token but never commits, so the durable store is unchanged and the user's
stored `reset_token` is still `none`, not the returned token. -/
theorem reset_token_not_persisted :
    (password_reset_request db0 "a@x.com" 100).1 = .ok aliceResetToken ∧
    (password_reset_request db0 "a@x.com" 100).2 = db0 ∧
    (get_user_by_email (password_reset_request db0 "a@x.com" 100).2 "a@x.com").map
      User.reset_token = some none := by
  decide

/-- C2: the spec claims `request_password_reset` followed by
`confirm_password_reset` with the returned token succeeds.  On the code the
very first confirm is rejected with the InvalidToken error: the stored
`reset_token` was never persisted, so the exact-match check fails. -/
theorem first_confirm_rejected :
    (password_reset_request db0 "a@x.com" 100).1 = .ok aliceResetToken ∧
    password_reset_confirm (password_reset_request db0 "a@x.com" 100).2
        aliceResetToken "newpw" 200 1 true =
      (.error (.badRequest "Invalid token or token expired"), db0) := by
  decide

/-- C3: whenever `reset_password` fails (bad signature, expired token, payload
without a subject, unknown email, mismatch with the stored token, or a failed
commit), the durable store — in particular the user's `hashed_password` and
`reset_token` — is exactly what it was before the call. -/
theorem reset_password_failure_leaves_store_unchanged
    (durable : DB) (token : JwtToken) (new_password : String) (now salt : Nat)
    (commitOk : Bool)
    (h : (reset_password durable token new_password now salt commitOk).1 = false) :
    (reset_password durable token new_password now salt commitOk).2 = durable := by
  unfold reset_password at h ⊢
  rcases hdec : jwt_decode token now with _ | payload
  · simp [hdec]
  · rcases payload with _ | email
    · simp [hdec]
    · rcases hu : get_user_by_email durable email with _ | user
      · simp [hdec, hu]
      · simp only [hdec, hu] at h ⊢
        by_cases hm : user.reset_token != some token
        · simp [hm]
        · simp only [hm, if_false] at h ⊢
          cases commitOk with
          | false => simp
          | true => simp at h

/-- Witness for C3 at a concrete input: the mismatch branch on `db0`. -/
theorem reset_password_failure_leaves_store_unchanged_witness :
    (reset_password db0 aliceResetToken "x" 200 1 true).1 = false ∧
    (reset_password db0 aliceResetToken "x" 200 1 true).2 = db0 :=
  ⟨by decide,
   reset_password_failure_leaves_store_unchanged db0 aliceResetToken "x" 200 1 true
     (by decide)⟩

/-- A revoked token never authenticates: the guard consults the revocation
list right after signature/expiry validation, so membership alone forces
`none`, whatever the store, the time, or the rest of the list. -/
theorem authenticate_request_revoked (db : DB) (blacklist : List JwtToken)
    (token : JwtToken) (now : Nat) (h : token ∈ blacklist) :
    authenticate_request db blacklist token now = none := by
  unfold authenticate_request
  rcases hdec : jwt_decode token now with _ | payload
  · rfl
  · rcases payload with _ | username
    · rfl
    · simp [is_revoked, h]

/-- C4: once a token has been accepted by `logout`, it is on the revocation
list, every later `authenticate_request` with it (any store, any larger list,
any time — expired or not) yields Unauthorized, and a second `logout` with
the same token is safe: it is rejected as unauthenticated and leaves the
revocation list, hence the property, unchanged. -/
theorem logout_revokes_token (db : DB) (blacklist : List JwtToken)
    (token : JwtToken) (now : Nat)
    (h : (logout db blacklist token now).1.isOk = true) :
    token ∈ (logout db blacklist token now).2 ∧
    (∀ (db' : DB) (bl' : List JwtToken) (now' : Nat), token ∈ bl' →
      authenticate_request db' bl' token now' = none) ∧
    (∀ (db' : DB) (now' : Nat),
      logout db' (logout db blacklist token now).2 token now' =
        (.error (.unauthorized "Not authenticated"),
         (logout db blacklist token now).2)) := by
  have hbl : (logout db blacklist token now).2 = add_token_to_blacklist blacklist token := by
    unfold logout at h ⊢
    rcases ha : authenticate_request db blacklist token now with _ | u
    · rw [ha] at h; simp [Except.isOk, Except.toBool] at h
    · rfl
  have hmem : token ∈ add_token_to_blacklist blacklist token := by
    unfold add_token_to_blacklist
    split
    · assumption
    · exact List.mem_cons_self _ _
  refine ⟨by rw [hbl]; exact hmem,
          fun db' bl' now' hm => authenticate_request_revoked db' bl' token now' hm,
          fun db' now' => ?_⟩
  rw [hbl]
  unfold logout
  rw [authenticate_request_revoked db' (add_token_to_blacklist blacklist token) token now' hmem]

/-- Witness for C4: a concrete successful logout of alice's fresh bearer
token, after which the token is on the revocation list. -/
theorem logout_revokes_token_witness :
    (logout db0 [] aliceAccessToken 100).1.isOk = true ∧
    aliceAccessToken ∈ (logout db0 [] aliceAccessToken 100).2 :=
  ⟨by decide, (logout_revokes_token db0 [] aliceAccessToken 100 (by decide)).1⟩

/-- C5 counterexample: order 2 exists in `db2` and alice is neither staff nor
its owner, yet deleting it does not fail with the 403 Forbidden error the
claim states — the handler's `except Exception` clause catches its own 403
and re-raises it as the 500 "Order Not Found" — though the store is still
left unchanged. -/
theorem delete_order_500_not_forbidden :
    get_order db2 2 = some order2 ∧
    alice.is_staff = false ∧
    order2.user_id ≠ alice.id ∧
    delete_order db2 alice 2 = (.error (.serverError "Order Not Found"), db2) ∧
    (delete_order db2 alice 2).1 ≠
      .error (.forbidden "Not authorized to delete this order") := by
  decide

/-- C5 (amended): for an authenticated user and an existing order, the
single-order read and the order delete succeed exactly when the user is
staff or owns the order; otherwise the read is rejected with the 403
Forbidden error, while the delete is rejected with the 500 "Order Not Found"
server error (its own 403 being swallowed by its `except Exception` clause)
and leaves the store unchanged. -/
theorem order_access_owner_or_staff (db : DB) (user : User) (order_id : Nat)
    (order : Order) (h : get_order db order_id = some order) :
    ((read_order db user order_id).isOk = true ↔
      (user.is_staff = true ∨ order.user_id = user.id)) ∧
    ((delete_order db user order_id).1.isOk = true ↔
      (user.is_staff = true ∨ order.user_id = user.id)) ∧
    (user.is_staff = false → order.user_id ≠ user.id →
      read_order db user order_id = .error (.forbidden "Not authorized to view this order") ∧
      delete_order db user order_id =
        (.error (.serverError "Order Not Found"), db)) := by
  have hf : db.orders.find? (fun o => o.id == order_id) = some order := h
  cases hstaff : user.is_staff
  · by_cases hown : order.user_id = user.id
    · simp [read_order, delete_order, get_order, hf, hstaff, hown, Except.isOk, Except.toBool]
    · simp [read_order, delete_order, get_order, hf, hstaff, hown, Except.isOk, Except.toBool]
  · simp [read_order, delete_order, get_order, hf, hstaff, Except.isOk, Except.toBool]

/-- Witness for C5: alice may read her own order in `db2`. -/
theorem order_access_owner_or_staff_witness :
    get_order db2 1 = some order1 ∧ (read_order db2 alice 1).isOk = true :=
  ⟨by decide,
   ((order_access_owner_or_staff db2 alice 1 order1 (by decide)).1).mpr
     (Or.inr (by decide))⟩

/-- C6: product creation and product deletion by a non-staff user are
rejected with 403 Forbidden — before any lookup, so independently of any
ownership relation — and the store is unchanged; consequently these
operations can only ever succeed for a staff user. -/
theorem product_mutation_requires_staff (db : DB) (user : User)
    (product : ProductCreate) (nextId product_id : Nat)
    (h : user.is_staff = false) :
    create_product db user product nextId =
      (.error (.forbidden "Not authorized to create products"), db) ∧
    delete_product db user product_id =
      (.error (.forbidden "Not authorized to delete products"), db) := by
  simp [create_product, delete_product, h]

/-- A product creation request body used by the C6 witness. -/
def tea_create : ProductCreate :=
  { name := "tea", description := none, price := 3, is_active := true }

/-- Witness for C6: non-staff alice cannot create a product. -/
theorem product_mutation_requires_staff_witness :
    alice.is_staff = false ∧
    create_product db2 alice tea_create 7 =
      (.error (.forbidden "Not authorized to create products"), db2) :=
  ⟨by decide, (product_mutation_requires_staff db2 alice tea_create 7 1 (by decide)).1⟩

/-- C7: a login with an existing username and a wrong password and a login
with a nonexistent username produce the same 401 error value — the two
failure runs are indistinguishable to the caller. -/
theorem login_failures_indistinguishable (db : DB) (u1 p1 u2 p2 : String)
    (user : User) (now1 now2 : Nat)
    (h1 : get_user_by_username db u1 = some user)
    (h2 : verify_password p1 user.hashed_password = false)
    (h3 : get_user_by_username db u2 = none) :
    login_for_access_token db u1 p1 now1 =
      .error (.unauthorized "Incorrect username or password") ∧
    login_for_access_token db u2 p2 now2 =
      .error (.unauthorized "Incorrect username or password") := by
  constructor
  · simp [login_for_access_token, authenticate_user, h1, h2]
  · simp [login_for_access_token, authenticate_user, h3]

/-- Witness for C7: wrong password for "alice" versus unknown "mallory". -/
theorem login_failures_indistinguishable_witness :
    login_for_access_token db0 "alice" "wrong" 5 =
      .error (.unauthorized "Incorrect username or password") ∧
    login_for_access_token db0 "mallory" "pw1" 5 =
      .error (.unauthorized "Incorrect username or password") :=
  login_failures_indistinguishable db0 "alice" "wrong" "mallory" "pw1" alice 5 5
    (by decide) (by decide) (by decide)

/-- C8: the spec claims signup with fresh credentials succeeds and a
subsequent login with the same credentials returns a token.  On the code,
signup fails even on an empty store — `crud.create_user` reads the
undeclared `UserCreate.is_staff` attribute, raising `AttributeError`, which
`main.signup` converts to a 400 — so no user is created and the subsequent
login is rejected with 401. -/
theorem signup_then_login_fails :
    (signup emptyDB ⟨"alice", "a@x.com", "pw1"⟩ 0 1 true).1 =
      .error (.badRequest "Username or Email already exists") ∧
    (signup emptyDB ⟨"alice", "a@x.com", "pw1"⟩ 0 1 true).2 = emptyDB ∧
    login_for_access_token (signup emptyDB ⟨"alice", "a@x.com", "pw1"⟩ 0 1 true).2
        "alice" "pw1" 50 =
      .error (.unauthorized "Incorrect username or password") := by
  decide

/-- C9: the spec claims signup accepts an `is_staff` argument defaulting to
false.  On the code, `schemas.UserCreate` declares no `is_staff` field, so
the attribute access in `crud.create_user` yields nothing (`AttributeError`),
`create_user` raises instead of returning a user, and signup rejects every
request with a 400, leaving the store unchanged. -/
theorem signup_is_staff_attribute_missing :
    UserCreate.is_staff_attr ⟨"bob", "b@x.com", "pw"⟩ = none ∧
    create_user emptyDB ⟨"bob", "b@x.com", "pw"⟩ 0 1 true = .error () ∧
    signup emptyDB ⟨"bob", "b@x.com", "pw"⟩ 0 1 true =
      (.error (.badRequest "Username or Email already exists"), emptyDB) := by
  decide

/-- C10: every order in a non-staff user's listing carries that user's id,
and a staff user's listing is the unfiltered offset/limit listing. -/
theorem order_listing_scoped_to_owner (db : DB) (user : User) (skip limit : Nat) :
    (user.is_staff = false →
      ∀ o ∈ read_orders db user skip limit, o.user_id = user.id) ∧
    (user.is_staff = true →
      read_orders db user skip limit = get_orders db skip limit) := by
  constructor
  · intro h o ho
    simp only [read_orders, h, Bool.false_eq_true, if_false] at ho
    have h1 : o ∈ (db.orders.filter (fun o => o.user_id == user.id)).drop skip :=
      List.mem_of_mem_take ho
    have h2 : o ∈ db.orders.filter (fun o => o.user_id == user.id) :=
      List.mem_of_mem_drop h1
    have h3 := List.of_mem_filter h2
    exact eq_of_beq h3
  · intro h
    simp [read_orders, h]

/-- Witness for C10: non-staff alice's listing of `db2` contains her own
order, whose `user_id` is hers. -/
theorem order_listing_scoped_to_owner_witness :
    order1 ∈ read_orders db2 alice 0 10 ∧ order1.user_id = alice.id :=
  ⟨by decide,
   (order_listing_scoped_to_owner db2 alice 0 10).1 (by decide) order1 (by decide)⟩

end Delivery
